import Mathlib

/-!
# AsTrade-Backend: verification of the rewards/streak evaluator and the
# Extended Exchange transport wrapper

Shallow embedding of the core logic of the AsTrade backend
(`app/services/rewards_service.py`, `app/services/extended_client.py`,
`app/services/extended/client.py`, `app/api/v1/markets.py`,
`app/api/v1/orders.py`) together with proofs of the specification's
testable properties.

Modelling conventions:
* Calendar days are represented as integers (day index); Python
  `date` subtraction `(a - b).days` becomes integer subtraction, and
  `str(today)` equality becomes integer equality.
* Database state (the `astrade_user_profiles` row) is passed explicitly:
  each mutating operation takes the current profile and returns the
  response together with the updated profile.
* Python `try/except` blocks become explicit case analysis: the embedded
  function returns the value the `except` branch produces at each point
  where the modelled code can raise.
-/

namespace AsTrade

/-! ## Rewards/streak evaluator (`app/services/rewards_service.py`) -/

/-- A streak record as stored in the `streaks` JSON column:
`{"current_streak": _, "longest_streak": _, "last_activity_date": _}`. -/
structure Streak where
  current_streak : Nat
  longest_streak : Nat
  last_activity_date : Option Int
deriving Repr, DecidableEq

/-- A reward dictionary.  Covers both the daily reward config entries
(`{"day": d, "amount": a, "currency": c, "type": t [, "image_url": u]}`)
and the fixed `galaxy_explorer_reward` (which has a `description`
instead of a `day`). -/
structure RewardData where
  day : Option Nat := none
  amount : Nat
  currency : String
  rtype : String
  image_url : Option String := none
  description : Option String := none
deriving Repr, DecidableEq

/-- An entry of the `daily_rewards_claimed` JSON log:
`{"date": _, "type": _, "reward": _, "streak_count": _}`. -/
structure ClaimedReward where
  date : Int
  rtype : String
  reward : RewardData
  streak_count : Nat
deriving Repr, DecidableEq

/-- The fields of an `astrade_user_profiles` row that the rewards
evaluator reads and writes. -/
structure Profile where
  level : Nat
  experience : Nat
  daily_login : Streak
  galaxy_explorer : Streak
  claimed : List ClaimedReward
deriving Repr, DecidableEq

/-- `RewardsService.default_daily_rewards`: the built-in 7-day fallback
table used when the `reward_configs` table is absent. -/
def default_daily_rewards : List RewardData :=
  [ { day := some 1, amount := 50, currency := "credits", rtype := "credits" },
    { day := some 2, amount := 75, currency := "credits", rtype := "credits" },
    { day := some 3, amount := 100, currency := "credits", rtype := "mystery_nft" },
    { day := some 4, amount := 125, currency := "credits", rtype := "credits" },
    { day := some 5, amount := 150, currency := "credits", rtype := "credits" },
    { day := some 6, amount := 200, currency := "credits", rtype := "credits" },
    { day := some 7, amount := 500, currency := "credits", rtype := "premium_mystery_variant" } ]

/-- `RewardsService.galaxy_explorer_reward`. -/
def galaxy_explorer_reward : RewardData :=
  { amount := 25, currency := "credits", rtype := "galaxy_credits",
    description := some "Galaxy Explorer Bonus" }

/-- The NFT record built for image rewards on days 2/4/6
(`claim_daily_reward`, NFT branch). -/
structure NftData where
  nft_type : String
  nft_name : String
  nft_description : String
  image_url : String
  rarity : String
  acquired_from : String
  day_number : Nat
  streak_count : Nat
deriving Repr, DecidableEq

/-- The `ClaimRewardResponse` model returned by `claim_daily_reward`.
`reward_data = none` models the empty dict `{}` of the failure paths. -/
structure ClaimRewardResponse where
  success : Bool
  reward_data : Option RewardData
  new_streak : Nat
  message : String
deriving Repr, DecidableEq

/-- `claimed_today` check of `claim_daily_reward`: whether the claimed
log already holds an entry for `today` of the given type. -/
def claimedToday (claimed : List ClaimedReward) (today : Int) (rtype : String) : Bool :=
  claimed.any fun r => r.date == today && r.rtype == rtype

/-- `RewardsService.claim_daily_reward(user_id, reward_type)`.

Inputs besides the profile: `rewards` is the loaded daily reward table
(`self.default_daily_rewards` after `_load_reward_configs`), `today` is
`date.today()`.  Returns the response, the updated profile, and the list
of NFTs minted via `add_user_nft`.

The Python list access `self.default_daily_rewards[day_number - 1]` can
raise `IndexError`; the surrounding `try/except` then returns a
`success=False` response and performs no update, which the `none` branch
of the lookup models. -/
def claim_daily_reward (rewards : List RewardData) (today : Int)
    (p : Profile) (reward_type : String) :
    ClaimRewardResponse × Profile × List NftData :=
  if claimedToday p.claimed today reward_type then
    ({ success := false, reward_data := none, new_streak := 0,
       message := "Ya reclamaste la recompensa de hoy" }, p, [])
  else
    let daily := p.daily_login
    if reward_type == "daily_streak" then
      let day_number := min (daily.current_streak + 1) 7
      match rewards.get? (day_number - 1) with
      | none =>
        -- IndexError caught by the `except` branch: no mutation.
        ({ success := false, reward_data := none, new_streak := 0,
           message := "Error al reclamar recompensa: list index out of range" }, p, [])
      | some reward_config =>
        let new_streak := daily.current_streak + 1
        let daily' : Streak :=
          { current_streak := new_streak,
            longest_streak := max daily.longest_streak new_streak,
            last_activity_date := some today }
        let claimed' := p.claimed ++
          [{ date := today, rtype := reward_type, reward := reward_config,
             streak_count := new_streak }]
        let nfts :=
          if (day_number == 2 || day_number == 4 || day_number == 6) then
            match reward_config.image_url with
            | some url =>
              [{ nft_type := "daily_reward",
                 nft_name := "Carta del Día " ++ toString day_number,
                 nft_description := "Recompensa obtenida por completar " ++
                   toString day_number ++ " días consecutivos",
                 image_url := url,
                 rarity := if day_number == 6 then "rare" else "common",
                 acquired_from := "daily_reward_day_" ++ toString day_number,
                 day_number := day_number, streak_count := new_streak }]
            | none => []
          else []
        let experience_gained := reward_config.amount
        let new_experience := p.experience + experience_gained
        let new_level := new_experience / 1000 + 1
        ({ success := true, reward_data := some reward_config,
           new_streak := new_streak,
           message := "¡Recompensa reclamada! +" ++ toString experience_gained ++
             " experiencia (Nivel " ++ toString new_level ++ ")" },
         { p with
             level := new_level,
             experience := new_experience,
             daily_login := daily',
             claimed := claimed' },
         nfts)
    else
      -- `galaxy_explorer` branch: fixed reward, no streak update,
      -- `new_streak` still computed from the daily-login streak.
      let reward_config := galaxy_explorer_reward
      let new_streak := daily.current_streak + 1
      let claimed' := p.claimed ++
        [{ date := today, rtype := reward_type, reward := reward_config,
           streak_count := new_streak }]
      let experience_gained := reward_config.amount
      let new_experience := p.experience + experience_gained
      let new_level := new_experience / 1000 + 1
      ({ success := true, reward_data := some reward_config,
         new_streak := new_streak,
         message := "¡Recompensa reclamada! +" ++ toString experience_gained ++
           " experiencia (Nivel " ++ toString new_level ++ ")" },
       { p with
           level := new_level,
           experience := new_experience,
           claimed := claimed' },
       [])

/-- The `is_consecutive` computation of `record_galaxy_explorer_activity`:
`True` when there is no previous activity, else `(today - last_date).days == 1`. -/
def galaxy_is_consecutive (today : Int) : Option Int → Bool
  | none => true
  | some last => today - last == 1

/-- `RewardsService.record_galaxy_explorer_activity(user_id)`.
Returns the boolean result and the updated profile. -/
def record_galaxy_explorer_activity (today : Int) (p : Profile) :
    Bool × Profile :=
  if claimedToday p.claimed today "galaxy_explorer" then
    (true, p)
  else
    let galaxy := p.galaxy_explorer
    let is_consecutive := galaxy_is_consecutive today galaxy.last_activity_date
    let new_streak := if is_consecutive then galaxy.current_streak + 1 else 1
    let claimed' := p.claimed ++
      [{ date := today, rtype := "galaxy_explorer", reward := galaxy_explorer_reward,
         streak_count := new_streak }]
    let galaxy' : Streak :=
      { current_streak := new_streak,
        longest_streak := max galaxy.longest_streak new_streak,
        last_activity_date := some today }
    (true, { p with galaxy_explorer := galaxy', claimed := claimed' })

/-- Concrete profile for the C1 scenario: daily-login streak 6/6 whose
sixth claim was recorded on day 0. -/
def profileStreakSix : Profile :=
  { level := 1, experience := 600,
    daily_login := { current_streak := 6, longest_streak := 6,
                     last_activity_date := some 0 },
    galaxy_explorer := { current_streak := 0, longest_streak := 0,
                         last_activity_date := none },
    claimed := [{ date := 0, rtype := "daily_streak",
                  reward := { day := some 6, amount := 200, currency := "credits",
                              rtype := "credits" },
                  streak_count := 6 }] }

/-- Concrete profile for the C2 counterexample: daily-login streak 5/5
whose last activity was on day 0, claiming next on day 10 (a 10-day gap). -/
def profileGapTen : Profile :=
  { level := 1, experience := 0,
    daily_login := { current_streak := 5, longest_streak := 5,
                     last_activity_date := some 0 },
    galaxy_explorer := { current_streak := 0, longest_streak := 0,
                         last_activity_date := none },
    claimed := [] }

/-- Concrete profile for the C2 amended-claim witness: galaxy streak 3/3
with last activity on day 4. -/
def profileGalaxyThree : Profile :=
  { level := 1, experience := 0,
    daily_login := { current_streak := 2, longest_streak := 2,
                     last_activity_date := some 4 },
    galaxy_explorer := { current_streak := 3, longest_streak := 3,
                         last_activity_date := some 4 },
    claimed := [] }

/-- Concrete profile for the C3 witness: daily-login streak 10/10. -/
def profileStreakTen : Profile :=
  { level := 2, experience := 1500,
    daily_login := { current_streak := 10, longest_streak := 10,
                     last_activity_date := some 9 },
    galaxy_explorer := { current_streak := 0, longest_streak := 0,
                         last_activity_date := none },
    claimed := [] }

/-! ## Transport wrapper: live-request path
(`ExtendedExchangeClient._make_request` — identical in
`app/services/extended_client.py` and `app/services/extended/client.py`) -/

/-- An HTTP request as issued by `_make_request`: method, `url = path`,
query params, request body and the auth flag.  Python builds the body as
`json.dumps(data)`; the already-serialized body is modelled as
`data : Option String` (`none` when `data` is falsy, giving `body = ""`). -/
structure Request where
  method : String
  path : String
  params : List (String × String)
  data : Option String
  authRequired : Bool
deriving Repr, DecidableEq

/-- An HTTP response as observed by `_make_request`.  `retryAfter` is the
parsed `Retry-After` header (`none` when absent); JSON parsing is
abstracted, with `jsonMessage` carrying the `"message"` field the error
path reads from the parsed document. -/
structure HttpResponse where
  status : Nat
  retryAfter : Option Nat := none
  contentTypeJson : Bool := true
  jsonMessage : Option String := none
  body : String := ""
deriving Repr, DecidableEq

/-- The parsed `result`: either `response.json()` (content type
`application/json`) or the wrapper dict `{"data": response.text}`. -/
inductive ParsedResult where
  | json (message : Option String) (raw : String)
  | wrappedText (raw : String)
deriving Repr, DecidableEq

/-- Response parsing step of `_make_request`. -/
def parse_response (r : HttpResponse) : ParsedResult :=
  if r.contentTypeJson then .json r.jsonMessage r.body
  else .wrappedText r.body

/-- `result.get("message", "Unknown error")` used to build `ErrorDetail`
(a `{"data": text}` wrapper dict has no `"message"` key). -/
def error_message : ParsedResult → String
  | .json m _ => m.getD "Unknown error"
  | .wrappedText _ => "Unknown error"

/-- Errors raised by the httpx transport while sending.  In httpx's
exception hierarchy, `TimeoutException` derives from `TransportError`
which derives from `RequestError`, so both variants below are instances
of `httpx.RequestError`. -/
inductive HttpxError where
  | connectError (msg : String)
  | timeoutException (msg : String)
deriving Repr, DecidableEq

/-- `isinstance(e, httpx.RequestError)`: true for every transport error,
timeouts included (see the hierarchy note on `HttpxError`). -/
def HttpxError.isRequestError : HttpxError → Bool := fun _ => true

/-- `isinstance(e, httpx.TimeoutException)`. -/
def HttpxError.isTimeoutException : HttpxError → Bool
  | .timeoutException _ => true
  | .connectError _ => false

/-- The exception's string form interpolated into the 503 detail. -/
def HttpxError.msg : HttpxError → String
  | .connectError m => m
  | .timeoutException m => m

/-- Outcome of `_make_request`: a returned payload, a raised
`fastapi.HTTPException` (status plus detail message), an exception that
matched no `except` clause, or an exhausted response environment (model
artifact: the modelled trace supplied no further response). -/
inductive ReqOutcome where
  | success (result : ParsedResult)
  | httpError (status : Nat) (detail : String)
  | uncaught (e : HttpxError)
  | noOutcome
deriving Repr, DecidableEq

/-- The `except` clauses at the end of `_make_request`.  Python tests the
clauses in source order, so `except httpx.RequestError` is tried first
and `except httpx.TimeoutException` only when the first clause does not
match the raised exception. -/
def handle_httpx_error (e : HttpxError) : ReqOutcome :=
  if e.isRequestError then
    .httpError 503 ("Connection error: " ++ e.msg)
  else if e.isTimeoutException then
    .httpError 408 "Request timeout"
  else
    .uncaught e

/-- What the network does to each attempted send: deliver a response or
raise a transport error. -/
inductive SendOutcome where
  | resp (r : HttpResponse)
  | raiseError (e : HttpxError)
deriving Repr, DecidableEq

/-- The live-call path of `_make_request`, run against an environment
listing the outcome of each successive send.  Returns the final outcome,
the log of requests actually sent (each retry re-sends the same
`Request`, as the recursive call passes `method, path, params, data,
auth_required` unchanged), and the total seconds slept in
`asyncio.sleep`.

On a 429 response it sleeps for the `Retry-After` value (default 60) and
recurses; on a transport error it dispatches to the `except` clauses;
otherwise it parses the response and raises `HTTPException` for any
status ≥ 400. -/
def make_request : List SendOutcome → Request → ReqOutcome × List Request × Nat
  | [], req => (.noOutcome, [req], 0)
  | .raiseError e :: _, req => (handle_httpx_error e, [req], 0)
  | .resp r :: rest, req =>
    if r.status == 429 then
      let retry_after := r.retryAfter.getD 60
      let result := make_request rest req
      (result.1, req :: result.2.1, retry_after + result.2.2)
    else
      let result := parse_response r
      if r.status ≥ 400 then
        (.httpError r.status (error_message result), [req], 0)
      else
        (.success result, [req], 0)

/-- Concrete request used by the C4/C5 witnesses. -/
def sampleRequest : Request :=
  { method := "GET", path := "/markets", params := [], data := none,
    authRequired := false }

/-! ## Mock-data generators and the mock-mode dispatch
(`app/services/extended_client.py`)

Python float arithmetic on the mock prices is modelled with exact
rationals (the claims at stake concern determinism and totality, not
binary rounding), `datetime.utcnow()` / `time.time()` are modelled by an
explicit clock argument `now` in epoch seconds, and `isoformat()`
rendering is left as the underlying instant. -/

/-- One entry of `_get_mock_markets()`. -/
structure MockMarket where
  symbol : String
  display_name : String
  base_asset : String
  quote_asset : String
  status : String
  tick_size : String
  step_size : String
  min_order_size : String
  max_order_size : String
  maker_fee : String
  taker_fee : String
  funding_interval : Nat
  max_leverage : Nat
  is_active : Bool
deriving Repr, DecidableEq

/-- `ExtendedExchangeClient._get_mock_markets`. -/
def get_mock_markets : List MockMarket :=
  [ { symbol := "BTC-USD", display_name := "Bitcoin / USD",
      base_asset := "BTC", quote_asset := "USD", status := "active",
      tick_size := "0.1", step_size := "0.001", min_order_size := "0.001",
      max_order_size := "100.0", maker_fee := "0.0002", taker_fee := "0.0005",
      funding_interval := 8, max_leverage := 20, is_active := true },
    { symbol := "ETH-USD", display_name := "Ethereum / USD",
      base_asset := "ETH", quote_asset := "USD", status := "active",
      tick_size := "0.01", step_size := "0.01", min_order_size := "0.01",
      max_order_size := "1000.0", maker_fee := "0.0002", taker_fee := "0.0005",
      funding_interval := 8, max_leverage := 20, is_active := true },
    { symbol := "SOL-USD", display_name := "Solana / USD",
      base_asset := "SOL", quote_asset := "USD", status := "active",
      tick_size := "0.01", step_size := "0.1", min_order_size := "0.1",
      max_order_size := "10000.0", maker_fee := "0.0002", taker_fee := "0.0005",
      funding_interval := 8, max_leverage := 15, is_active := true } ]

/-- One per-symbol entry of `_get_mock_market_stats`.  `next_funding_time`
is `base_time + timedelta(hours=2)` where `base_time = datetime.utcnow()`. -/
structure MockStats where
  symbol : String
  last_price : String
  price_change : String
  price_change_percent : String
  high_24h : String
  low_24h : String
  volume_24h : String
  volume_usd_24h : String
  open_interest : String
  funding_rate : String
  next_funding_time : Nat
  mark_price : String
  index_price : String
deriving Repr, DecidableEq

/-- The `stats_data` table of `_get_mock_market_stats` at clock `now`. -/
def mock_stats_data (now : Nat) : List (String × MockStats) :=
  [ ("BTC-USD",
     { symbol := "BTC-USD", last_price := "95420.5", price_change := "1250.3",
       price_change_percent := "1.33", high_24h := "96100.0",
       low_24h := "93800.2", volume_24h := "12500.75",
       volume_usd_24h := "1192450000.50", open_interest := "285000000.0",
       funding_rate := "0.0001", next_funding_time := now + 7200,
       mark_price := "95425.1", index_price := "95422.8" }),
    ("ETH-USD",
     { symbol := "ETH-USD", last_price := "3456.78", price_change := "89.12",
       price_change_percent := "2.64", high_24h := "3500.00",
       low_24h := "3350.25", volume_24h := "45000.50",
       volume_usd_24h := "155552250.75", open_interest := "125000000.0",
       funding_rate := "0.00015", next_funding_time := now + 7200,
       mark_price := "3457.22", index_price := "3456.95" }),
    ("SOL-USD",
     { symbol := "SOL-USD", last_price := "185.45", price_change := "12.85",
       price_change_percent := "7.44", high_24h := "188.90",
       low_24h := "170.15", volume_24h := "750000.25",
       volume_usd_24h := "139087546.25", open_interest := "45000000.0",
       funding_rate := "0.0002", next_funding_time := now + 7200,
       mark_price := "185.52", index_price := "185.48" }) ]

/-- `_get_mock_market_stats(symbol)` with a symbol:
`stats_data.get(symbol, {})` — `none` models the empty dict. -/
def get_mock_market_stats_for (symbol : String) (now : Nat) : Option MockStats :=
  ((mock_stats_data now).find? fun e => e.1 == symbol).map (·.2)

/-- `_get_mock_market_stats()` without a symbol: `list(stats_data.values())`. -/
def get_mock_market_stats_all (now : Nat) : List MockStats :=
  (mock_stats_data now).map (·.2)

/-- `base_price` selection shared by `_get_mock_orderbook` and
`_get_mock_trades`. -/
def mock_base_price (symbol : String) : ℚ :=
  if symbol = "BTC-USD" then 95420.5
  else if symbol = "ETH-USD" then 3456.78
  else 185.45

/-- One price level of the mock order book (`f"{price:.2f}"`/`f"{size}"`
rendering is left as the exact value). -/
structure OrderLevel where
  price : ℚ
  size : ℚ
  num_orders : Nat
deriving Repr, DecidableEq

/-- The dict returned by `_get_mock_orderbook`: `timestamp` is
`datetime.utcnow().isoformat()` and `sequence` is `int(time.time())`,
both functions of the clock. -/
structure MockOrderbook where
  symbol : String
  bids : List OrderLevel
  asks : List OrderLevel
  timestamp : Nat
  sequence : Nat
deriving Repr, DecidableEq

/-- `ExtendedExchangeClient._get_mock_orderbook(symbol, limit)` at clock
`now`.  `round(0.1 + i*0.05, 3)` is exact on these values. -/
def get_mock_orderbook (symbol : String) (limit : Nat) (now : Nat) :
    MockOrderbook :=
  let base_price := mock_base_price symbol
  let bids := (List.range (min limit 20)).map fun (i : ℕ) =>
    { price := base_price - ((i : ℚ) + 1) * (base_price * (1 / 10000)),
      size := 1 / 10 + (i : ℚ) * (5 / 100),
      num_orders := i + 1 : OrderLevel }
  let asks := (List.range (min limit 20)).map fun (i : ℕ) =>
    { price := base_price + ((i : ℚ) + 1) * (base_price * (1 / 10000)),
      size := 1 / 10 + (i : ℚ) * (5 / 100),
      num_orders := i + 1 : OrderLevel }
  { symbol := symbol, bids := bids, asks := asks,
    timestamp := now, sequence := now }

/-- One mock trade: the `id` embeds `int(time.time())`, the `timestamp`
is `base_time - timedelta(minutes=i)`. -/
structure MockTrade where
  id : String
  symbol : String
  price : ℚ
  size : ℚ
  side : String
  timestamp : Int
  liquidation : Bool
deriving Repr, DecidableEq

/-- The dict returned by `_get_mock_trades`: the trade list plus the
pagination block. -/
structure MockTradesPage where
  data : List MockTrade
  cursor : Nat
  count : Nat
  has_next : Bool
  has_previous : Bool
deriving Repr, DecidableEq

/-- `ExtendedExchangeClient._get_mock_trades(symbol, limit, cursor)` at
clock `now`. -/
def get_mock_trades (symbol : String) (limit : Nat) (cursor : Option Nat)
    (now : Nat) : MockTradesPage :=
  let base_price := mock_base_price symbol
  let trades := (List.range (min limit 50)).map fun (i : ℕ) =>
    { id := "trade_" ++ toString now ++ "_" ++ toString i,
      symbol := symbol,
      price := base_price + (base_price * (1 / 1000)) *
        (1 / 2 - ((i % 10 : ℕ) : ℚ) / 10),
      size := 1 / 100 + ((i % 5 : ℕ) : ℚ) * (1 / 10),
      side := if i % 2 == 0 then "buy" else "sell",
      timestamp := (now : Int) - 60 * i,
      liquidation := false : MockTrade }
  { data := trades,
    cursor := cursor.getD now,
    count := trades.length,
    has_next := trades.length == limit,
    has_previous := cursor.isSome }

/-! ### Python string helpers for the mock-mode dispatch -/

/-- Python `s.split("/")` on a character list. -/
def splitSlash : List Char → List (List Char)
  | [] => [[]]
  | c :: cs =>
    match splitSlash cs with
    | [] => [[]]
    | h :: t => if c = '/' then [] :: h :: t else (c :: h) :: t

/-- Python `s.split("/")` returning strings. -/
def strSplitSlash (s : String) : List String :=
  (splitSlash s.data).map fun l => String.mk l

/-- Boolean list-prefix test. -/
def listPrefixOf : List Char → List Char → Bool
  | [], _ => true
  | _ :: _, [] => false
  | a :: as, b :: bs => a == b && listPrefixOf as bs

/-- Python `s.startswith(pre)`. -/
def pyStartsWith (pre s : String) : Bool := listPrefixOf pre.data s.data

/-- Python `s.endswith(suf)`. -/
def pyEndsWith (suf s : String) : Bool :=
  listPrefixOf suf.data.reverse s.data.reverse

/-- Boolean substring test. -/
def listContains (needle : List Char) : List Char → Bool
  | [] => listPrefixOf needle []
  | c :: cs => listPrefixOf needle (c :: cs) || listContains needle cs

/-- Python `needle in s`. -/
def pyIn (needle s : String) : Bool := listContains needle.data s.data

/-- The query params the mock branch reads: `params.get("limit", 100)`
and `params.get("cursor")`.  `none` models `params=None`. -/
structure MockParams where
  limit : Option Nat := none
  cursor : Option Nat := none
deriving Repr, DecidableEq

/-- A mock-mode return value of `_make_request`: the dict each branch
builds.  Note the `/trades` branch returns `_get_mock_trades(...)` bare,
while the others wrap their payload as `{"data": ...}`. -/
inductive MockResponse where
  | dataMarkets (ms : List MockMarket)
  | dataStats (s : Option MockStats)
  | dataStatsList (l : List MockStats)
  | dataOrderbook (ob : MockOrderbook)
  | trades (t : MockTradesPage)
  | dataMessage (msg : String)
deriving Repr, DecidableEq

/-- Outcome of the mock branch: a returned dict, or an uncaught
`IndexError` from `path.split("/")[2]` when the path has fewer than three
slash-separated components. -/
inductive MockResult where
  | payload (p : MockResponse)
  | indexError
deriving Repr, DecidableEq

/-- The mock-mode branch of `ExtendedExchangeClient._make_request`
(`extended_client.py`): dispatch on the path pattern, never touching the
network, the session, or the auth machinery (`auth_required` is accepted
and ignored). -/
def make_request_mock (method path : String) (params : Option MockParams)
    (data : Option String) (auth_required : Bool) (now : Nat) : MockResult :=
  if path = "/markets" then
    .payload (.dataMarkets get_mock_markets)
  else if pyStartsWith "/markets/" path && pyEndsWith "/stats" path then
    match (strSplitSlash path).get? 2 with
    | none => .indexError
    | some symbol => .payload (.dataStats (get_mock_market_stats_for symbol now))
  else if pyIn "/stats" path && !pyEndsWith "/stats" path then
    .payload (.dataStatsList (get_mock_market_stats_all now))
  else if pyIn "/orderbook" path then
    match (strSplitSlash path).get? 2 with
    | none => .indexError
    | some symbol =>
      let limit := match params with
        | none => 100
        | some pr => pr.limit.getD 100
      .payload (.dataOrderbook (get_mock_orderbook symbol limit now))
  else if pyIn "/trades" path then
    match (strSplitSlash path).get? 2 with
    | none => .indexError
    | some symbol =>
      let limit := match params with
        | none => 100
        | some pr => pr.limit.getD 100
      let cursor := match params with
        | none => none
        | some pr => pr.cursor
      .payload (.trades (get_mock_trades symbol limit cursor now))
  else
    .payload (.dataMessage ("Mock endpoint " ++ path ++ " not implemented yet"))

/-! ## HMAC-SHA256 and request signing
(`_generate_signature` / `_get_auth_headers` in both client files)

Python's `hmac.new(secret.encode(), message.encode(), hashlib.sha256)
.hexdigest()` is embedded as an executable HMAC-SHA256 over UTF-8 byte
lists (bytes as `Nat < 256`, 32-bit words as `Nat` reduced mod `2^32`). -/

/-- Truncation to a 32-bit word. -/
def w32 (n : Nat) : Nat := n % 4294967296

/-- 32-bit right rotation. -/
def rotr32 (n x : Nat) : Nat := w32 ((x >>> n) ||| (x <<< (32 - n)))

/-- The 64 SHA-256 round constants (FIPS 180-4), written in decimal. -/
def sha256_k : List Nat :=
  [1116352408, 1899447441, 3049323471, 3921009573,
   961987163, 1508970993, 2453635748, 2870763221,
   3624381080, 310598401, 607225278, 1426881987,
   1925078388, 2162078206, 2614888103, 3248222580,
   3835390401, 4022224774, 264347078, 604807628,
   770255983, 1249150122, 1555081692, 1996064986,
   2554220882, 2821834349, 2952996808, 3210313671,
   3336571891, 3584528711, 113926993, 338241895,
   666307205, 773529912, 1294757372, 1396182291,
   1695183700, 1986661051, 2177026350, 2456956037,
   2730485921, 2820302411, 3259730800, 3345764771,
   3516065817, 3600352804, 4094571909, 275423344,
   430227734, 506948616, 659060556, 883997877,
   958139571, 1322822218, 1537002063, 1747873779,
   1955562222, 2024104815, 2227730452, 2361852424,
   2428436474, 2756734187, 3204031479, 3329325298]

/-- The eight SHA-256 initial hash words (FIPS 180-4), in decimal. -/
def sha256_h0 : List Nat :=
  [1779033703, 3144134277, 1013904242, 2773480762,
   1359893119, 2600822924, 528734635, 1541459225]

/-- SHA-256 message padding: `0x80`, zeros to 56 mod 64, the bit length
as 8 big-endian bytes. -/
def sha256_pad (msg : List Nat) : List Nat :=
  let len := msg.length
  let zeros := (64 - (len + 9) % 64) % 64
  msg ++ [0x80] ++ List.replicate zeros 0 ++
    (List.range 8).map fun i => ((8 * len) >>> (8 * (7 - i))) % 256

/-- Split into 64-byte blocks (fuel-driven; the fuel is the list length,
which bounds the block count). -/
def chunks64 : Nat → List Nat → List (List Nat)
  | 0, _ => []
  | _, [] => []
  | fuel + 1, l => l.take 64 :: chunks64 fuel (l.drop 64)

/-- Big-endian bytes to 32-bit words. -/
def sha256_words : List Nat → List Nat
  | b0 :: b1 :: b2 :: b3 :: rest =>
    ((b0 <<< 24) + (b1 <<< 16) + (b2 <<< 8) + b3) :: sha256_words rest
  | _ => []

/-- SHA-256 small sigma 0. -/
def sha256_ssig0 (x : Nat) : Nat :=
  (rotr32 7 x) ^^^ (rotr32 18 x) ^^^ (x >>> 3)

/-- SHA-256 small sigma 1. -/
def sha256_ssig1 (x : Nat) : Nat :=
  (rotr32 17 x) ^^^ (rotr32 19 x) ^^^ (x >>> 10)

/-- SHA-256 big sigma 0. -/
def sha256_bsig0 (x : Nat) : Nat :=
  (rotr32 2 x) ^^^ (rotr32 13 x) ^^^ (rotr32 22 x)

/-- SHA-256 big sigma 1. -/
def sha256_bsig1 (x : Nat) : Nat :=
  (rotr32 6 x) ^^^ (rotr32 11 x) ^^^ (rotr32 25 x)

/-- Message-schedule extension: append `fuel` further words. -/
def sha256_extend : Nat → List Nat → List Nat
  | 0, w => w
  | fuel + 1, w =>
    let i := w.length
    let g : Nat → Nat := fun k => (w.get? (i - k)).getD 0
    sha256_extend fuel
      (w ++ [w32 (sha256_ssig1 (g 2) + g 7 + sha256_ssig0 (g 15) + g 16)])

/-- SHA-256 choice function (`¬x` as the 32-bit complement). -/
def sha256_ch (x y z : Nat) : Nat :=
  (x &&& y) ^^^ ((4294967295 - w32 x) &&& z)

/-- SHA-256 majority function. -/
def sha256_maj (x y z : Nat) : Nat :=
  (x &&& y) ^^^ (x &&& z) ^^^ (y &&& z)

/-- One compression round over the working state `(a..h)`. -/
def sha256_round (st : Nat × Nat × Nat × Nat × Nat × Nat × Nat × Nat)
    (kw : Nat × Nat) : Nat × Nat × Nat × Nat × Nat × Nat × Nat × Nat :=
  match st, kw with
  | (a, b, c, d, e, f, g, h), (ki, wi) =>
    let t1 := w32 (h + sha256_bsig1 e + sha256_ch e f g + ki + wi)
    let t2 := w32 (sha256_bsig0 a + sha256_maj a b c)
    (w32 (t1 + t2), a, b, c, w32 (d + t1), e, f, g)

/-- Compress one 64-byte chunk into the running hash (8 words). -/
def sha256_compress (h : List Nat) (chunk : List Nat) : List Nat :=
  let w := sha256_extend 48 (sha256_words chunk)
  let g : Nat → Nat := fun k => (h.get? k).getD 0
  match (sha256_k.zip w).foldl sha256_round
      (g 0, g 1, g 2, g 3, g 4, g 5, g 6, g 7) with
  | (a, b, c, d, e, f, g6, g7) =>
    [w32 (g 0 + a), w32 (g 1 + b), w32 (g 2 + c), w32 (g 3 + d),
     w32 (g 4 + e), w32 (g 5 + f), w32 (g 6 + g6), w32 (g 7 + g7)]

/-- SHA-256 of a byte list, as 32 bytes. -/
def sha256_bytes (msg : List Nat) : List Nat :=
  let padded := sha256_pad msg
  let hs := (chunks64 padded.length padded).foldl sha256_compress sha256_h0
  hs.flatMap fun wd =>
    [(wd >>> 24) % 256, (wd >>> 16) % 256, (wd >>> 8) % 256, wd % 256]

/-- Lowercase hex digit. -/
def hexDigit (n : Nat) : Char :=
  if n < 10 then Char.ofNat (48 + n) else Char.ofNat (87 + n)

/-- Two-digit lowercase hex of a byte. -/
def byteToHex (b : Nat) : String :=
  String.mk [hexDigit (b / 16), hexDigit (b % 16)]

/-- Lowercase hex of a byte list (Python `.hexdigest()` rendering). -/
def bytesToHex (bs : List Nat) : String :=
  String.join (bs.map byteToHex)

/-- HMAC-SHA256 (RFC 2104, block size 64). -/
def hmac_sha256 (key msg : List Nat) : List Nat :=
  let k0 := if 64 < key.length then sha256_bytes key else key
  let kp := k0 ++ List.replicate (64 - k0.length) 0
  let ipad := kp.map fun b => b ^^^ 0x36
  let opad := kp.map fun b => b ^^^ 0x5c
  sha256_bytes (opad ++ sha256_bytes (ipad ++ msg))

/-- UTF-8 encoding of one character. -/
def utf8Bytes (c : Char) : List Nat :=
  let n := c.toNat
  if n < 0x80 then [n]
  else if n < 0x800 then
    [0xC0 ||| (n >>> 6), 0x80 ||| (n &&& 0x3F)]
  else if n < 0x10000 then
    [0xE0 ||| (n >>> 12), 0x80 ||| ((n >>> 6) &&& 0x3F), 0x80 ||| (n &&& 0x3F)]
  else
    [0xF0 ||| (n >>> 18), 0x80 ||| ((n >>> 12) &&& 0x3F),
     0x80 ||| ((n >>> 6) &&& 0x3F), 0x80 ||| (n &&& 0x3F)]

/-- UTF-8 bytes of a string (Python `.encode()`). -/
def strBytes (s : String) : List Nat :=
  s.data.flatMap utf8Bytes

/-- `hmac.new(key.encode(), message.encode(), hashlib.sha256).hexdigest()`. -/
def hmac_sha256_hexdigest (key msg : String) : String :=
  bytesToHex (hmac_sha256 (strBytes key) (strBytes msg))

/-- Python's falsy test `not settings.extended_secret_key`:
true for both an unset (`None`) and an empty secret. -/
def secretMissing : Option String → Bool
  | none => true
  | some s => s = ""

/-- `ExtendedExchangeClient._generate_signature` in `extended_client.py`:
raises `HTTPException(status_code=401, detail="Secret key not
configured")` when no secret is configured, else returns the hex
HMAC-SHA256 of `timestamp + method.upper() + path + body`. -/
def generate_signature (secret : Option String)
    (timestamp method path body : String) : Except (Nat × String) String :=
  if secretMissing secret then
    .error (401, "Secret key not configured")
  else
    .ok (hmac_sha256_hexdigest (secret.getD "")
      (timestamp ++ method.toUpper ++ path ++ body))

/-- `_generate_signature` in the duplicated `extended/client.py`:
silently returns the empty string when no secret is configured, and does
not uppercase the method. -/
def generate_signature_dup (secret : Option String)
    (timestamp method path body : String) : String :=
  if secretMissing secret then ""
  else
    hmac_sha256_hexdigest (secret.getD "")
      (timestamp ++ method ++ path ++ body)

/-- `_get_auth_headers` (`extended_client.py`).  The timestamp string
`str(int(time.time() * 1000))` is modelled as the pre-rendered clock
string; a signing error propagates out of the handler. -/
def get_auth_headers (secret : Option String)
    (timestamp method path body : String) :
    Except (Nat × String) (List (String × String)) :=
  match generate_signature secret timestamp method path body with
  | .error e => .error e
  | .ok signature => .ok [("X-Timestamp", timestamp), ("X-Signature", signature)]

/-- `_get_auth_headers` in the duplicated `extended/client.py`: never
fails, attaching whatever `_generate_signature` returned. -/
def get_auth_headers_dup (secret : Option String)
    (timestamp method path body : String) : List (String × String) :=
  [("X-Timestamp", timestamp),
   ("X-Signature", generate_signature_dup secret timestamp method path body)]

/-! ## Route handlers: limit validation and the TWAP endpoint
(`app/api/v1/markets.py`, `app/api/v1/orders.py`) -/

/-- What an endpoint returns to the caller: a success payload, a
request-validation rejection (a FastAPI `Query`/model constraint
violation, produced by the framework before the handler body runs), or
an `HTTPException` raised by the handler. -/
inductive ApiResult (α : Type) where
  | ok (data : α)
  | validationError
  | httpError (status : Nat) (detail : String)

/-- An endpoint run: its result plus the log of `(symbol, limit)` calls
made to the upstream `extended_client`. -/
structure EndpointRun (α : Type) where
  result : ApiResult α
  upstream_calls : List (String × Nat)

/-- `GET /markets/{symbol}/orderbook` (`markets.py::get_orderbook`) with
`limit: int = Query(default=100, ge=1, le=1000)`.  FastAPI enforces the
declared `ge`/`le` bounds before the handler body runs; the handler then
calls `extended_client.get_orderbook(symbol, limit)` — abstracted as the
`client` argument — and converts any exception to a 500. -/
def get_orderbook_endpoint
    (client : String → Nat → Except (Nat × String) MockOrderbook)
    (symbol : String) (limit : Int) : EndpointRun MockOrderbook :=
  if limit < 1 ∨ 1000 < limit then
    { result := .validationError, upstream_calls := [] }
  else
    let l : Nat := limit.toNat
    match client symbol l with
    | .ok ob => { result := .ok ob, upstream_calls := [(symbol, l)] }
    | .error _ =>
      { result := .httpError 500 ("Failed to fetch order book for " ++ symbol),
        upstream_calls := [(symbol, l)] }

/-- A `limit` query parameter declaration `Query(..., ge=_, le=_)`. -/
structure LimitQuery where
  endpoint : String
  ge : Int
  le : Int
deriving Repr, DecidableEq

/-- Every `limit` bound declared on a paginated endpoint in the route
files (`markets.py`, `orders.py`, `accounts.py`, and the duplicated
`markets/routes.py`, `orders/routes.py`). -/
def paginated_limit_queries : List LimitQuery :=
  [ { endpoint := "markets.get_orderbook", ge := 1, le := 1000 },
    { endpoint := "markets.get_trades", ge := 1, le := 1000 },
    { endpoint := "markets.get_candles", ge := 1, le := 1000 },
    { endpoint := "markets.get_funding_history", ge := 1, le := 1000 },
    { endpoint := "orders.get_orders", ge := 1, le := 1000 },
    { endpoint := "orders.get_order_history", ge := 1, le := 1000 },
    { endpoint := "orders.get_trades", ge := 1, le := 1000 },
    { endpoint := "accounts.get_position_history", ge := 1, le := 1000 },
    { endpoint := "markets_routes.get_orderbook", ge := 1, le := 1000 },
    { endpoint := "markets_routes.get_trending", ge := 1, le := 100 },
    { endpoint := "orders_routes.get_user_orders", ge := 1, le := 1000 } ]

/-- Whether a declared `Query(ge=_, le=_)` bound accepts a limit value. -/
def limit_query_accepts (q : LimitQuery) (limit : Int) : Bool :=
  q.ge ≤ limit && limit ≤ q.le

/-- Order types accepted by `OrderRequest.type`. -/
inductive OrderType where
  | limit | market | stop_limit | stop_market | twap
deriving Repr, DecidableEq

/-- Order sides. -/
inductive OrderSide where
  | buy | sell
deriving Repr, DecidableEq

/-- The fields of `OrderRequest` that `create_twap_order` reads. -/
structure OrderRequest where
  symbol : String
  otype : OrderType
  side : OrderSide
  size : ℚ
  client_id : Option String := none
deriving Repr, DecidableEq

/-- `TWAPOrderParams` request body. -/
structure TWAPOrderParams where
  duration : Int
  interval : Int
  randomize : Bool
deriving Repr, DecidableEq

/-- Modelled from the spec: the `TWAPOrderParams` bounds.  The request
model `app/models/orders.py` is absent from the source tree; per the
spec (and the route's docstring), `duration` must lie in 60 s–24 h and
`interval` in 10 s–1 h, and a violation is rejected by request
validation before the handler body runs. -/
def twap_params_valid (t : TWAPOrderParams) : Bool :=
  60 ≤ t.duration && t.duration ≤ 86400 &&
    (10 ≤ t.interval && t.interval ≤ 3600)

/-- The HTTP outcome of `POST /orders/twap`. -/
inductive TwapResult where
  | ok
  | error (status : Nat) (detail : String)
deriving Repr, DecidableEq

/-- `POST /orders/twap` (`orders.py::create_twap_order`).  Request-model
validation of `twap_params` runs first (spec-modelled, see
`twap_params_valid`).  The handler's `try` block raises
`HTTPException(400, "Order type must be 'twap' for TWAP orders")` for a
non-twap order type and otherwise calls `extended_client.create_order`
(`client_fails` models that call raising); the trailing broad
`except Exception` — which in Python also catches `HTTPException`, a
subclass of `Exception` — replaces *every* exception raised in the block
with `HTTPException(500, "Failed to create TWAP order")`. -/
def create_twap_order (req : OrderRequest) (t : TWAPOrderParams)
    (client_fails : Bool) : TwapResult :=
  if twap_params_valid t = false then
    .error 400 "validation error: twap_params out of bounds"
  else
    let body : Except (Nat × String) Unit :=
      if req.otype ≠ OrderType.twap then
        .error (400, "Order type must be 'twap' for TWAP orders")
      else if client_fails then
        .error (500, "client error")
      else
        .ok ()
    match body with
    | .ok _ => .ok
    | .error _ => .error 500 "Failed to create TWAP order"

/-! ## Theorems: rewards/streak evaluator -/

/-- C1: for a user whose daily_login streak is 6/6 and who already claimed
today (day `d`), a second `claim_daily_reward` call on day `d` returns
`success=false` and leaves the profile (hence both streak values)
unchanged; a claim on day `d+1` returns `success=true` with
`current_streak=7`, `longest_streak=7`, awarding the day-7 entry of the
7-entry reward table. -/
theorem claim_daily_reward_streak_six (rewards : List RewardData) (d : Int)
    (p : Profile)
    (hlen : rewards.length = 7)
    (hcur : p.daily_login.current_streak = 6)
    (hlong : p.daily_login.longest_streak = 6)
    (htoday : claimedToday p.claimed d "daily_streak" = true)
    (hnext : claimedToday p.claimed (d + 1) "daily_streak" = false) :
    ((claim_daily_reward rewards d p "daily_streak").1.success = false
      ∧ (claim_daily_reward rewards d p "daily_streak").2.1 = p)
    ∧ (claim_daily_reward rewards (d + 1) p "daily_streak").1.success = true
    ∧ (claim_daily_reward rewards (d + 1) p
        "daily_streak").2.1.daily_login.current_streak = 7
    ∧ (claim_daily_reward rewards (d + 1) p
        "daily_streak").2.1.daily_login.longest_streak = 7
    ∧ (claim_daily_reward rewards (d + 1) p "daily_streak").1.reward_data
        = rewards.get? 6 := by
  have h6 : (6 : ℕ) < rewards.length := by omega
  obtain ⟨e, he⟩ : ∃ e, rewards.get? 6 = some e :=
    ⟨rewards.get ⟨6, h6⟩, List.get?_eq_get h6⟩
  have hmin : min (p.daily_login.current_streak + 1) 7 - 1 = 6 := by
    rw [hcur]; rfl
  constructor
  · constructor <;> simp [claim_daily_reward, htoday]
  · simp only [claim_daily_reward, hnext, if_false, Bool.false_eq_true]
    rw [hmin, he]
    simp [hcur, hlong]

/-- Witness for `claim_daily_reward_streak_six` at `profileStreakSix`,
day 0, with the built-in reward table. -/
theorem claim_daily_reward_streak_six_holds :
    (default_daily_rewards.length = 7
      ∧ profileStreakSix.daily_login.current_streak = 6
      ∧ profileStreakSix.daily_login.longest_streak = 6
      ∧ claimedToday profileStreakSix.claimed 0 "daily_streak" = true
      ∧ claimedToday profileStreakSix.claimed (0 + 1) "daily_streak" = false)
    ∧ (((claim_daily_reward default_daily_rewards 0 profileStreakSix
          "daily_streak").1.success = false
        ∧ (claim_daily_reward default_daily_rewards 0 profileStreakSix
            "daily_streak").2.1 = profileStreakSix)
      ∧ (claim_daily_reward default_daily_rewards (0 + 1) profileStreakSix
          "daily_streak").1.success = true
      ∧ (claim_daily_reward default_daily_rewards (0 + 1) profileStreakSix
          "daily_streak").2.1.daily_login.current_streak = 7
      ∧ (claim_daily_reward default_daily_rewards (0 + 1) profileStreakSix
          "daily_streak").2.1.daily_login.longest_streak = 7
      ∧ (claim_daily_reward default_daily_rewards (0 + 1) profileStreakSix
          "daily_streak").1.reward_data = default_daily_rewards.get? 6) :=
  ⟨⟨by decide, by decide, by decide, by decide, by decide⟩,
    claim_daily_reward_streak_six default_daily_rewards 0 profileStreakSix
      (by decide) (by decide) (by decide) (by decide) (by decide)⟩

/-- C2 counterexample: for the daily_login kind the invariant fails.
`profileGapTen` has `last_activity_date = day 0` and `current_streak = 5`;
claiming on day 10 (a gap of 10 days, greater than one) *increments*
`current_streak` to 6 instead of resetting it to 1: the daily-login claim
path never consults `last_activity_date`. -/
theorem claim_daily_reward_gap_no_reset :
    profileGapTen.daily_login.last_activity_date = some 0
    ∧ (10 : Int) - 0 > 1
    ∧ (claim_daily_reward default_daily_rewards 10 profileGapTen
        "daily_streak").2.1.daily_login.current_streak = 6
    ∧ (6 : ℕ) ≠ 1 := by
  refine ⟨rfl, by decide, ?_, by decide⟩
  decide

/-- C2 (amended): the one-day-gap invariant holds for the galaxy_explorer
kind — on a recording event dated `today` that mutates state,
`current_streak` is incremented exactly when `last_activity_date` is one
calendar day before today or unset, and is reset to 1 otherwise — while
the daily_login claim path increments `current_streak` unconditionally
(it is guarded only by the already-claimed-today check and never resets
on a gap). -/
theorem streak_gap_handling (today : Int) (p : Profile)
    (rewards : List RewardData)
    (hg : claimedToday p.claimed today "galaxy_explorer" = false)
    (hd : claimedToday p.claimed today "daily_streak" = false)
    (hlen : 7 ≤ rewards.length) :
    ((record_galaxy_explorer_activity today p).2.galaxy_explorer.current_streak
        = if galaxy_is_consecutive today p.galaxy_explorer.last_activity_date
          then p.galaxy_explorer.current_streak + 1 else 1)
    ∧ (galaxy_is_consecutive today p.galaxy_explorer.last_activity_date = true
        ↔ p.galaxy_explorer.last_activity_date = none
          ∨ p.galaxy_explorer.last_activity_date = some (today - 1))
    ∧ (claim_daily_reward rewards today p
        "daily_streak").2.1.daily_login.current_streak
        = p.daily_login.current_streak + 1 := by
  refine ⟨?_, ?_, ?_⟩
  · simp only [record_galaxy_explorer_activity, hg, Bool.false_eq_true,
      if_false]
  · cases hl : p.galaxy_explorer.last_activity_date with
    | none => simp [galaxy_is_consecutive]
    | some l =>
      simp only [galaxy_is_consecutive, beq_iff_eq, Option.some.injEq,
        reduceCtorEq, false_or]
      omega
  · have hidx : min (p.daily_login.current_streak + 1) 7 - 1 < rewards.length := by
      have : min (p.daily_login.current_streak + 1) 7 ≤ 7 := min_le_right _ _
      omega
    obtain ⟨e, he⟩ : ∃ e,
        rewards.get? (min (p.daily_login.current_streak + 1) 7 - 1) = some e :=
      ⟨rewards.get ⟨_, hidx⟩, List.get?_eq_get hidx⟩
    simp only [claim_daily_reward, hd, Bool.false_eq_true, if_false, he]
    simp

/-- Witness for `streak_gap_handling` at `profileGalaxyThree` on day 5:
the galaxy streak was last active on day 4, so the event increments it
to 4; the daily claim increments to 3 regardless of its gap. -/
theorem streak_gap_handling_holds :
    (claimedToday profileGalaxyThree.claimed 5 "galaxy_explorer" = false
      ∧ claimedToday profileGalaxyThree.claimed 5 "daily_streak" = false
      ∧ 7 ≤ default_daily_rewards.length)
    ∧ (((record_galaxy_explorer_activity 5
          profileGalaxyThree).2.galaxy_explorer.current_streak
        = if galaxy_is_consecutive 5
            profileGalaxyThree.galaxy_explorer.last_activity_date
          then profileGalaxyThree.galaxy_explorer.current_streak + 1 else 1)
      ∧ (galaxy_is_consecutive 5
            profileGalaxyThree.galaxy_explorer.last_activity_date = true
          ↔ profileGalaxyThree.galaxy_explorer.last_activity_date = none
            ∨ profileGalaxyThree.galaxy_explorer.last_activity_date
                = some (5 - 1))
      ∧ (claim_daily_reward default_daily_rewards 5 profileGalaxyThree
          "daily_streak").2.1.daily_login.current_streak
          = profileGalaxyThree.daily_login.current_streak + 1) :=
  ⟨⟨by decide, by decide, by decide⟩,
    streak_gap_handling 5 profileGalaxyThree default_daily_rewards
      (by decide) (by decide) (by decide)⟩

/-- C3: on every daily_login claim that passes the same-day guard, the
reward slot used is `day_number = min(current_streak + 1, 7)`: the claim
succeeds against any 7-entry reward table, and the awarded reward is the
entry at index `day_number - 1` — never past the table's end.  In
particular (witness below) claiming at `current_streak = 10` indexes
slot 7. -/
theorem claim_daily_reward_slot (rewards : List RewardData) (today : Int)
    (p : Profile)
    (hlen : rewards.length = 7)
    (h : claimedToday p.claimed today "daily_streak" = false) :
    min (p.daily_login.current_streak + 1) 7 ≤ 7
    ∧ (claim_daily_reward rewards today p "daily_streak").1.success = true
    ∧ (claim_daily_reward rewards today p "daily_streak").1.reward_data
        = rewards.get? (min (p.daily_login.current_streak + 1) 7 - 1) := by
  have hidx : min (p.daily_login.current_streak + 1) 7 - 1 < rewards.length := by
    have : min (p.daily_login.current_streak + 1) 7 ≤ 7 := min_le_right _ _
    omega
  obtain ⟨e, he⟩ : ∃ e,
      rewards.get? (min (p.daily_login.current_streak + 1) 7 - 1) = some e :=
    ⟨rewards.get ⟨_, hidx⟩, List.get?_eq_get hidx⟩
  refine ⟨min_le_right _ _, ?_, ?_⟩ <;>
    simp only [claim_daily_reward, h, Bool.false_eq_true, if_false, he] <;>
    simp

/-- Witness for `claim_daily_reward_slot` at `profileStreakTen`
(`current_streak = 10`): `min (10 + 1) 7 = 7`, and the award is slot 7 of
the built-in table — the day-7 premium entry, not an out-of-bounds read. -/
theorem claim_daily_reward_slot_holds :
    (default_daily_rewards.length = 7
      ∧ claimedToday profileStreakTen.claimed 20 "daily_streak" = false)
    ∧ (min (profileStreakTen.daily_login.current_streak + 1) 7 ≤ 7
      ∧ (claim_daily_reward default_daily_rewards 20 profileStreakTen
          "daily_streak").1.success = true
      ∧ (claim_daily_reward default_daily_rewards 20 profileStreakTen
          "daily_streak").1.reward_data
          = default_daily_rewards.get?
              (min (profileStreakTen.daily_login.current_streak + 1) 7 - 1))
    ∧ min (profileStreakTen.daily_login.current_streak + 1) 7 = 7
    ∧ default_daily_rewards.get?
        (min (profileStreakTen.daily_login.current_streak + 1) 7 - 1)
        = some { day := some 7, amount := 500, currency := "credits",
                 rtype := "premium_mystery_variant" } :=
  ⟨⟨by decide, by decide⟩,
    claim_daily_reward_slot default_daily_rewards 20 profileStreakTen
      (by decide) (by decide),
    by decide, by decide⟩

/-! ## Theorems: transport wrapper -/

/-- C4: when the first send returns HTTP 429 with `Retry-After: 2` and the
second send returns a non-429 response, `_make_request` sleeps 2 seconds
(≥ 2), sends exactly two requests — the retry being byte-identical to the
original (same method, path, params, body, auth flag) — and yields the
outcome of processing the second response. -/
theorem rate_limit_retry_once (req : Request) (r2 : HttpResponse)
    (h429 : r2.status ≠ 429) :
    (make_request [.resp { status := 429, retryAfter := some 2 }, .resp r2]
        req).2.1 = [req, req]
    ∧ (make_request [.resp { status := 429, retryAfter := some 2 }, .resp r2]
        req).2.2 = 2
    ∧ 2 ≤ (make_request [.resp { status := 429, retryAfter := some 2 },
        .resp r2] req).2.2
    ∧ (make_request [.resp { status := 429, retryAfter := some 2 }, .resp r2]
        req).1 = (make_request [.resp r2] req).1 := by
  have hbeq : (r2.status == 429) = false := by
    simpa using h429
  by_cases h4 : 400 ≤ r2.status <;>
    refine ⟨?_, ?_, ?_, ?_⟩ <;>
    simp [make_request, hbeq, h4]

/-- Witness for `rate_limit_retry_once`: a 429 with `Retry-After: 2`
followed by a 200 JSON response. -/
theorem rate_limit_retry_once_holds :
    ((200 : ℕ) ≠ 429)
    ∧ ((make_request [.resp { status := 429, retryAfter := some 2 },
          .resp { status := 200 }] sampleRequest).2.1
        = [sampleRequest, sampleRequest]
      ∧ (make_request [.resp { status := 429, retryAfter := some 2 },
          .resp { status := 200 }] sampleRequest).2.2 = 2
      ∧ 2 ≤ (make_request [.resp { status := 429, retryAfter := some 2 },
          .resp { status := 200 }] sampleRequest).2.2
      ∧ (make_request [.resp { status := 429, retryAfter := some 2 },
          .resp { status := 200 }] sampleRequest).1
        = (make_request [.resp { status := 200 }] sampleRequest).1) :=
  ⟨by decide,
    rate_limit_retry_once sampleRequest { status := 200 } (by decide)⟩

/-- C5 (code bug): a send that raises `httpx.TimeoutException` is caught
by the *first* `except` clause (`httpx.RequestError`, of which
`TimeoutException` is a subclass) and reported as 503 "Connection error",
not as the distinct 408 timeout kind the spec describes — the
`except httpx.TimeoutException` clause returning 408 is unreachable.
A connection failure is likewise reported as 503, and neither failure is
retried (exactly one request is sent, zero seconds are slept). -/
theorem timeout_conflated_with_unavailable :
    make_request [.raiseError (.timeoutException "timed out")] sampleRequest
      = (.httpError 503 "Connection error: timed out", [sampleRequest], 0)
    ∧ make_request [.raiseError (.connectError "refused")] sampleRequest
      = (.httpError 503 "Connection error: refused", [sampleRequest], 0)
    ∧ (ReqOutcome.httpError 503 "Connection error: timed out"
        ≠ .httpError 408 "Request timeout") := by
  refine ⟨rfl, rfl, by decide⟩

/-! ## Theorems: mock-data generators and mock-mode dispatch -/

/-- C6 counterexample: the mock generators are *not* functions of path
and params alone — with identical parameters, the orderbook payload at
clock 0 differs from the one at clock 1 (its `sequence` field is
`int(time.time())`), and likewise the trades payload (whose default
pagination cursor, trade ids and timestamps embed the clock). -/
theorem mock_payloads_differ_across_time :
    get_mock_orderbook "BTC-USD" 100 0 ≠ get_mock_orderbook "BTC-USD" 100 1
    ∧ get_mock_trades "BTC-USD" 100 none 0
        ≠ get_mock_trades "BTC-USD" 100 none 1 := by
  constructor <;> intro h
  · have h' := congrArg MockOrderbook.sequence h
    simp [get_mock_orderbook] at h'
  · have h' := congrArg MockTradesPage.cursor h
    simp [get_mock_trades] at h'

/-- C6 (amended): each mock generator is a deterministic function of the
path symbol, the params, and the clock, and the clock enters only through
the time-stamp-like fields: for any two clock readings the orderbook
payloads agree on `symbol`, `bids` and `asks` (with `sequence` equal to
the clock), the trades payloads agree on every per-trade field except the
clock-embedding `id`/`timestamp` and on the whole pagination block except
the clock-defaulted cursor; at equal clock readings the payloads are
fully identical. -/
theorem mock_generators_deterministic_given_clock (symbol : String)
    (limit : Nat) (cursor : Option Nat) (n₁ n₂ : Nat) :
    (get_mock_orderbook symbol limit n₁).symbol
        = (get_mock_orderbook symbol limit n₂).symbol
    ∧ (get_mock_orderbook symbol limit n₁).bids
        = (get_mock_orderbook symbol limit n₂).bids
    ∧ (get_mock_orderbook symbol limit n₁).asks
        = (get_mock_orderbook symbol limit n₂).asks
    ∧ (get_mock_orderbook symbol limit n₁).sequence = n₁
    ∧ (get_mock_trades symbol limit cursor n₁).data.map
        (fun t => (t.symbol, t.price, t.size, t.side, t.liquidation))
        = (get_mock_trades symbol limit cursor n₂).data.map
          (fun t => (t.symbol, t.price, t.size, t.side, t.liquidation))
    ∧ (get_mock_trades symbol limit cursor n₁).count
        = (get_mock_trades symbol limit cursor n₂).count
    ∧ (get_mock_trades symbol limit cursor n₁).has_next
        = (get_mock_trades symbol limit cursor n₂).has_next
    ∧ (get_mock_trades symbol limit cursor n₁).has_previous
        = (get_mock_trades symbol limit cursor n₂).has_previous
    ∧ (n₁ = n₂ →
        get_mock_orderbook symbol limit n₁ = get_mock_orderbook symbol limit n₂
        ∧ get_mock_trades symbol limit cursor n₁
            = get_mock_trades symbol limit cursor n₂) := by
  refine ⟨rfl, rfl, rfl, rfl, ?_, ?_, ?_, rfl, ?_⟩
  · simp only [get_mock_trades, List.map_map]
    congr 1
  · simp [get_mock_trades]
  · simp [get_mock_trades]
  · rintro rfl
    exact ⟨rfl, rfl⟩

/-- Witness for `mock_generators_deterministic_given_clock` at
`"BTC-USD"`, limit 100, no cursor, equal clocks. -/
theorem mock_generators_deterministic_given_clock_holds :
    (get_mock_orderbook "BTC-USD" 100 7).symbol
        = (get_mock_orderbook "BTC-USD" 100 7).symbol
    ∧ (get_mock_orderbook "BTC-USD" 100 7).bids
        = (get_mock_orderbook "BTC-USD" 100 7).bids
    ∧ (get_mock_orderbook "BTC-USD" 100 7).asks
        = (get_mock_orderbook "BTC-USD" 100 7).asks
    ∧ (get_mock_orderbook "BTC-USD" 100 7).sequence = 7
    ∧ (get_mock_trades "BTC-USD" 100 none 7).data.map
        (fun t => (t.symbol, t.price, t.size, t.side, t.liquidation))
        = (get_mock_trades "BTC-USD" 100 none 7).data.map
          (fun t => (t.symbol, t.price, t.size, t.side, t.liquidation))
    ∧ (get_mock_trades "BTC-USD" 100 none 7).count
        = (get_mock_trades "BTC-USD" 100 none 7).count
    ∧ (get_mock_trades "BTC-USD" 100 none 7).has_next
        = (get_mock_trades "BTC-USD" 100 none 7).has_next
    ∧ (get_mock_trades "BTC-USD" 100 none 7).has_previous
        = (get_mock_trades "BTC-USD" 100 none 7).has_previous
    ∧ ((7 : ℕ) = 7 →
        get_mock_orderbook "BTC-USD" 100 7 = get_mock_orderbook "BTC-USD" 100 7
        ∧ get_mock_trades "BTC-USD" 100 none 7
            = get_mock_trades "BTC-USD" 100 none 7) :=
  mock_generators_deterministic_given_clock "BTC-USD" 100 none 7 7

/-- `splitSlash` yields one component per separator plus one. -/
theorem splitSlash_length (l : List Char) :
    (splitSlash l).length = l.count '/' + 1 := by
  induction l with
  | nil => rfl
  | cons c cs ih =>
    simp only [splitSlash]
    cases h : splitSlash cs with
    | nil => rw [h] at ih; simp at ih
    | cons hd tl =>
      rw [h] at ih
      simp only [List.length_cons] at ih
      dsimp only
      by_cases hc : c = '/'
      · rw [if_pos hc, hc]
        simp only [List.length_cons, List.count_cons, beq_self_eq_true,
          if_true]
        omega
      · rw [if_neg hc]
        simp [List.count_cons, hc]
        omega

/-- A prefix has no more occurrences of any character than the whole. -/
theorem count_le_of_listPrefixOf {p s : List Char} (c : Char)
    (h : listPrefixOf p s = true) : p.count c ≤ s.count c := by
  induction p generalizing s with
  | nil => simp
  | cons a as ih =>
    cases s with
    | nil => simp [listPrefixOf] at h
    | cons b bs =>
      simp only [listPrefixOf, Bool.and_eq_true, beq_iff_eq] at h
      obtain ⟨hab, hp⟩ := h
      subst hab
      have := ih hp
      simp only [List.count_cons]
      omega

/-- Component count of the Python `path.split("/")`. -/
theorem strSplitSlash_length (s : String) :
    (strSplitSlash s).length = s.data.count '/' + 1 := by
  simp [strSplitSlash, splitSlash_length]

/-- C10 counterexample: mock-mode `_make_request` is not total over every
path — the paths `/trades` (used by `get_trades_history`) and
`/orderbook` contain the dispatch substrings but have fewer than three
slash-separated components, so `path.split("/")[2]` raises an uncaught
`IndexError` instead of returning a payload dict. -/
theorem make_request_mock_index_error :
    make_request_mock "GET" "/trades" none none true 0 = .indexError
    ∧ make_request_mock "GET" "/orderbook" none none false 0 = .indexError := by
  exact ⟨rfl, rfl⟩

/-- C10 (amended): in mock mode `_make_request` performs no network I/O
and ignores `auth_required` entirely (so no auth error can occur even
with no secret configured), and it returns a dictionary payload for every
method, params and path — *except* that a path containing `/orderbook` or
`/trades` with fewer than three slash-separated components makes
`path.split("/")[2]` raise `IndexError`.  Any path matching no mock
pattern yields the placeholder `{"data": {"message": ...}}` payload. -/
theorem make_request_mock_total (method path : String)
    (params : Option MockParams) (data : Option String)
    (auth_required : Bool) (now : Nat)
    (h : 3 ≤ (strSplitSlash path).length
      ∨ (pyIn "/orderbook" path = false ∧ pyIn "/trades" path = false)) :
    make_request_mock method path params data auth_required now ≠ .indexError
    ∧ make_request_mock method path params data true now
        = make_request_mock method path params data false now
    ∧ (path ≠ "/markets" →
       (pyStartsWith "/markets/" path && pyEndsWith "/stats" path) = false →
       (pyIn "/stats" path && !pyEndsWith "/stats" path) = false →
       pyIn "/orderbook" path = false →
       pyIn "/trades" path = false →
       make_request_mock method path params data auth_required now
         = .payload (.dataMessage
             ("Mock endpoint " ++ path ++ " not implemented yet"))) := by
  refine ⟨?_, rfl, ?_⟩
  · by_cases h1 : path = "/markets"
    · simp [make_request_mock, h1]
    by_cases h2 : (pyStartsWith "/markets/" path && pyEndsWith "/stats" path) = true
    · have hpre : listPrefixOf "/markets/".data path.data = true := by
        have h2' := h2
        rw [Bool.and_eq_true] at h2'
        exact h2'.1
      have hc : ("/markets/".data.count '/') ≤ path.data.count '/' :=
        count_le_of_listPrefixOf '/' hpre
      have hc2 : ("/markets/".data.count '/') = 2 := by decide
      have hlen : 3 ≤ (strSplitSlash path).length := by
        rw [strSplitSlash_length]; omega
      obtain ⟨sym, hsym⟩ : ∃ sym, (strSplitSlash path)[2]? = some sym :=
        ⟨_, List.getElem?_eq_getElem (by omega)⟩
      simp [make_request_mock, h1, h2, hsym]
    by_cases h3 : (pyIn "/stats" path && !pyEndsWith "/stats" path) = true
    · simp [make_request_mock, h1, h2, h3]
    by_cases h4 : pyIn "/orderbook" path = true
    · have hlen : 3 ≤ (strSplitSlash path).length := by
        rcases h with hl | ⟨ho, _⟩
        · exact hl
        · rw [h4] at ho; cases ho
      obtain ⟨sym, hsym⟩ : ∃ sym, (strSplitSlash path)[2]? = some sym :=
        ⟨_, List.getElem?_eq_getElem (by omega)⟩
      simp [make_request_mock, h1, h2, h3, h4, hsym]
    by_cases h5 : pyIn "/trades" path = true
    · have hlen : 3 ≤ (strSplitSlash path).length := by
        rcases h with hl | ⟨_, ht⟩
        · exact hl
        · rw [h5] at ht; cases ht
      obtain ⟨sym, hsym⟩ : ∃ sym, (strSplitSlash path)[2]? = some sym :=
        ⟨_, List.getElem?_eq_getElem (by omega)⟩
      simp [make_request_mock, h1, h2, h3, h4, h5, hsym]
    · simp [make_request_mock, h1, h2, h3, h4, h5]
  · intro h1 h2 h3 h4 h5
    simp [make_request_mock, h1, h2, h3, h4, h5]

/-- Witness for `make_request_mock_total` at the orderbook path with
three components: the call returns a payload, ignores the auth flag, and
an unknown path gets the placeholder. -/
theorem make_request_mock_total_holds :
    (3 ≤ (strSplitSlash "/markets/BTC-USD/orderbook").length
      ∨ (pyIn "/orderbook" "/markets/BTC-USD/orderbook" = false
          ∧ pyIn "/trades" "/markets/BTC-USD/orderbook" = false))
    ∧ (make_request_mock "GET" "/markets/BTC-USD/orderbook" none none true 3
        ≠ .indexError
      ∧ make_request_mock "GET" "/markets/BTC-USD/orderbook" none none true 3
          = make_request_mock "GET" "/markets/BTC-USD/orderbook" none none false 3
      ∧ ("/markets/BTC-USD/orderbook" ≠ "/markets" →
         (pyStartsWith "/markets/" "/markets/BTC-USD/orderbook"
            && pyEndsWith "/stats" "/markets/BTC-USD/orderbook") = false →
         (pyIn "/stats" "/markets/BTC-USD/orderbook"
            && !pyEndsWith "/stats" "/markets/BTC-USD/orderbook") = false →
         pyIn "/orderbook" "/markets/BTC-USD/orderbook" = false →
         pyIn "/trades" "/markets/BTC-USD/orderbook" = false →
         make_request_mock "GET" "/markets/BTC-USD/orderbook" none none true 3
           = .payload (.dataMessage
               ("Mock endpoint " ++ "/markets/BTC-USD/orderbook"
                 ++ " not implemented yet")))) :=
  ⟨by decide,
    make_request_mock_total "GET" "/markets/BTC-USD/orderbook" none none true 3
      (by decide)⟩

set_option maxRecDepth 100000 in
/-- Validation of the embedded primitive: RFC 4231 test case 2 for
HMAC-SHA256, evaluated by the kernel. -/
theorem hmac_sha256_rfc4231_case2 :
    hmac_sha256_hexdigest "Jefe" "what do ya want for nothing?"
      = "5bdcc146bf60754e6a042426089575c75a003f089d2739839dec58b964ec3843" := by
  decide

/-- C7 counterexample: in the duplicated client (`extended/client.py`),
with no secret configured the signing step does *not* fail with an auth
error — it silently produces the empty signature and attaches it as
`X-Signature`. -/
theorem generate_signature_dup_missing_secret_no_error :
    generate_signature_dup none "123" "GET" "/account" "" = ""
    ∧ get_auth_headers_dup none "123" "GET" "/account" ""
        = [("X-Timestamp", "123"), ("X-Signature", "")] :=
  ⟨rfl, rfl⟩

/-- C7 (amended): for endpoints marked `auth_required` with a configured
secret, the attached `X-Signature` equals the hex HMAC-SHA256 of
`timestamp + method.upper() + path + body` in the primary client
(`extended_client.py`) and of `timestamp + method + path + body` in the
duplicate (`extended/client.py`); with no secret configured the primary
client fails with a 401 auth error, while the duplicate silently attaches
an empty signature. -/
theorem signature_construction (secret : String)
    (timestamp method path body : String) (hs : secret ≠ "") :
    get_auth_headers (some secret) timestamp method path body
      = .ok [("X-Timestamp", timestamp),
             ("X-Signature", hmac_sha256_hexdigest secret
               (timestamp ++ method.toUpper ++ path ++ body))]
    ∧ get_auth_headers_dup (some secret) timestamp method path body
      = [("X-Timestamp", timestamp),
         ("X-Signature", hmac_sha256_hexdigest secret
           (timestamp ++ method ++ path ++ body))]
    ∧ (∀ ts m p b, generate_signature none ts m p b
        = .error (401, "Secret key not configured"))
    ∧ (∀ ts m p b, generate_signature_dup none ts m p b = "") := by
  have hm : secretMissing (some secret) = false := by
    simp [secretMissing, hs]
  refine ⟨?_, ?_, fun ts m p b => rfl, fun ts m p b => rfl⟩ <;>
    simp [get_auth_headers, get_auth_headers_dup, generate_signature,
      generate_signature_dup, hm]

/-- Witness for `signature_construction` with the secret `"s3cr3t"` and a
concrete GET request. -/
theorem signature_construction_holds :
    ("s3cr3t" ≠ "")
    ∧ (get_auth_headers (some "s3cr3t") "1700000000000" "GET" "/account" ""
        = .ok [("X-Timestamp", "1700000000000"),
               ("X-Signature", hmac_sha256_hexdigest "s3cr3t"
                 ("1700000000000" ++ "GET".toUpper ++ "/account" ++ ""))]
      ∧ get_auth_headers_dup (some "s3cr3t") "1700000000000" "GET" "/account" ""
        = [("X-Timestamp", "1700000000000"),
           ("X-Signature", hmac_sha256_hexdigest "s3cr3t"
             ("1700000000000" ++ "GET" ++ "/account" ++ ""))]
      ∧ (∀ ts m p b, generate_signature none ts m p b
          = .error (401, "Secret key not configured"))
      ∧ (∀ ts m p b, generate_signature_dup none ts m p b = "")) :=
  ⟨by decide,
    signature_construction "s3cr3t" "1700000000000" "GET" "/account" ""
      (by decide)⟩

/-! ## Theorems: limit validation and the TWAP endpoint -/

/-- C8: for every `limit` outside [1,1000], the orderbook endpoint
returns a validation error and never invokes the upstream client (the
bound is enforced before the transport wrapper); moreover every declared
paginated-endpoint bound in the route files rejects such a limit, each
declared interval being contained in [1,1000]. -/
theorem orderbook_limit_validation (symbol : String) (limit : Int)
    (client : String → Nat → Except (Nat × String) MockOrderbook)
    (hout : limit < 1 ∨ 1000 < limit) :
    (get_orderbook_endpoint client symbol limit).result = .validationError
    ∧ (get_orderbook_endpoint client symbol limit).upstream_calls = []
    ∧ ∀ q ∈ paginated_limit_queries, limit_query_accepts q limit = false := by
  refine ⟨?_, ?_, ?_⟩
  · simp [get_orderbook_endpoint, hout]
  · simp [get_orderbook_endpoint, hout]
  · intro q hq
    fin_cases hq <;> simp [limit_query_accepts] <;> omega

/-- Witness for `orderbook_limit_validation` at `limit = 1001` with a
client that would succeed if called. -/
theorem orderbook_limit_validation_holds :
    ((1001 : Int) < 1 ∨ 1000 < (1001 : Int))
    ∧ ((get_orderbook_endpoint
          (fun s l => .ok (get_mock_orderbook s l 0)) "BTC-USD" 1001).result
        = .validationError
      ∧ (get_orderbook_endpoint
          (fun s l => .ok (get_mock_orderbook s l 0)) "BTC-USD" 1001).upstream_calls
        = []
      ∧ ∀ q ∈ paginated_limit_queries, limit_query_accepts q 1001 = false) :=
  ⟨by decide,
    orderbook_limit_validation "BTC-USD" 1001
      (fun s l => .ok (get_mock_orderbook s l 0)) (by decide)⟩

/-- C9 (code bug): `POST /orders/twap` with a non-twap order type does
*not* reject with status 400 — the handler raises the intended
`HTTPException(400, ...)` inside its `try` block, but the trailing
`except Exception` catches it (in Python `HTTPException` subclasses
`Exception`) and replaces it with a 500, so the caller sees
`500 "Failed to create TWAP order"`.  Out-of-bounds `twap_params`
(here `duration = 30 < 60`) are rejected by request validation as the
claim states. -/
theorem create_twap_order_type_rejection_swallowed :
    create_twap_order
      { symbol := "BTC-USD", otype := .limit, side := .buy, size := 1 / 100 }
      { duration := 3600, interval := 60, randomize := false } false
      = .error 500 "Failed to create TWAP order"
    ∧ (TwapResult.error 500 "Failed to create TWAP order"
        ≠ .error 400 "Order type must be 'twap' for TWAP orders")
    ∧ create_twap_order
        { symbol := "BTC-USD", otype := .twap, side := .buy, size := 1 / 100 }
        { duration := 30, interval := 60, randomize := false } false
        = .error 400 "validation error: twap_params out of bounds"
    ∧ create_twap_order
        { symbol := "BTC-USD", otype := .twap, side := .buy, size := 1 / 100 }
        { duration := 3600, interval := 3601, randomize := false } false
        = .error 400 "validation error: twap_params out of bounds"
    ∧ create_twap_order
        { symbol := "BTC-USD", otype := .twap, side := .buy, size := 1 / 100 }
        { duration := 3600, interval := 60, randomize := false } false
        = .ok := by
  refine ⟨rfl, by decide, rfl, rfl, rfl⟩

end AsTrade
